import Mathlib

/-!
Verification of the DataCloak Sentiment Workbench Python client
(`packages/backend/api-client-examples/python-client.py`).

The file shallowly embeds the client: session state and header handling,
the synchronous request path (`DataCloakClient._request`), `login`, the
asynchronous retry loop (`AsyncDataCloakClient._request`) and the job
poller (`poll_job_completion`).  Network effects are abstracted as the
per-attempt outcome the environment hands the code (a decoded body, an
HTTP error response, or a transport-level exception); everything the
client computes from those outcomes is translated directly from source.
-/

namespace DataCloak

/-- Mirrors class `DataCloakError`: message, optional HTTP status code,
optional server-supplied error code. -/
structure DataCloakError where
  message : String
  status_code : Option Nat
  error_code : Option String
deriving DecidableEq

/-- `base_url.rstrip('/')`: drop trailing slash characters. -/
def rstrip_slash (s : String) : String :=
  String.mk ((s.data.reverse.dropWhile (fun c => c = '/')).reverse)

/-- Header lookup in an ordered header mapping (dict access `d[k]` /
`k in d`). -/
def lookup_header : List (String × String) → String → Option String
  | [], _ => none
  | p :: rest, k => if p.1 = k then some p.2 else lookup_header rest k

/-- Dict assignment `d[k] = v`: replace the value in place when the key
exists, append otherwise. -/
def set_header : List (String × String) → String → String → List (String × String)
  | [], k, v => [(k, v)]
  | p :: rest, k, v => if p.1 = k then (k, v) :: rest else p :: set_header rest k v

/-- Dict deletion `del d[k]` (keys are unique in a dict, so removing
every pair with the key is the same as removing the one entry). -/
def del_header : List (String × String) → String → List (String × String)
  | [], _ => []
  | p :: rest, k => if p.1 = k then del_header rest k else p :: del_header rest k

/-- The urllib3 `Retry(...)` arguments the synchronous constructor passes
to its HTTP adapter. -/
structure Retry where
  total : Nat
  backoff_factor : Nat
  status_forcelist : List Nat
deriving DecidableEq

/-- Session state of `DataCloakClient`: base url, held bearer credential,
per-call timeout, session headers, and the retry strategy mounted on the
session adapter. -/
structure ClientState where
  base_url : String
  token : Option String
  timeout : Nat
  headers : List (String × String)
  retry : Retry
deriving DecidableEq

/-- `DataCloakClient.__init__`: strip the trailing slash, record the
token and timeout, configure the retry strategy
`Retry(total=max_retries, backoff_factor=1, status_forcelist=[429, 500, 502, 503, 504])`,
set the default headers, and add the bearer header when a token was
supplied. -/
def DataCloakClient.init (base_url : String) (token : Option String)
    (timeout max_retries : Nat) : ClientState :=
  let hs := [("Content-Type", "application/json"),
             ("User-Agent", "DataCloak-Python-Client/1.0.0")]
  let hs := match token with
    | some t => set_header hs "Authorization" ("Bearer " ++ t)
    | none => hs
  ⟨rstrip_slash base_url, token, timeout, hs, ⟨max_retries, 1, [429, 500, 502, 503, 504]⟩⟩

/-- The headers `_request` places into the keyword arguments of the one
`session.request` call: the caller-supplied `headers` when given, and —
when a multipart `files` payload is present and the session headers hold
a Content-Type — a copy of the session headers with Content-Type
deleted. -/
def request_headers (session_headers : List (String × String))
    (explicit : Option (List (String × String))) (has_files : Bool) :
    Option (List (String × String)) :=
  let kw := explicit
  if has_files then
    if (lookup_header session_headers "Content-Type").isSome then
      some (del_header session_headers "Content-Type")
    else kw
  else kw

/-- The merge the requests library performs in `Session.prepare_request`
(`merge_setting(request_headers, session_headers)`): the session headers
are the base and per-request headers override only the keys they
contain; a key merely absent from the per-request dict keeps its session
value (only an explicit None value would delete a key, and `_request`
never passes one). -/
def merge_headers (session_headers : List (String × String))
    (overrides : Option (List (String × String))) : List (String × String) :=
  match overrides with
  | none => session_headers
  | some hs => hs.foldl (fun acc p => set_header acc p.1 p.2) session_headers

/-- The header set the transport attaches to the outgoing call: the
per-request headers `_request` put into its keyword arguments, merged
over the session defaults as `session.request` does. -/
def sent_headers (session_headers : List (String × String))
    (explicit : Option (List (String × String))) (has_files : Bool) :
    List (String × String) :=
  merge_headers session_headers (request_headers session_headers explicit has_files)

/-- Outcome of the single `session.request` call inside the synchronous
`_request`, as classified by its except clauses: a decoded 2xx body, an
HTTP error status together with the attempt to parse the error body as a
JSON envelope (`none` when `response.json()` raises ValueError, otherwise
the optional `error` and `code` fields), or a `RequestException`
(connection failure, timeout, DNS failure) carrying `str(e)`. -/
inductive SyncOutcome (β : Type) where
  | ok (body : β)
  | httpError (status : Nat) (parsed : Option (Option String × Option String))
  | requestExc (msg : String)
deriving DecidableEq

/-- Stands for `str(e)` of the `HTTPError` that `raise_for_status` built;
its exact text comes from the HTTP library and no claim depends on it. -/
def http_error_str (status : Nat) : String :=
  "HTTP " ++ toString status

/-- Synchronous `DataCloakClient._request` after the single transport
call: return the decoded body on 2xx; on an HTTP error raise a
`DataCloakError` built from the parsed error envelope (falling back to
the status text when the body is not JSON); on a `RequestException`
raise `DataCloakError("Request failed: " + str(e))` with no status
code. -/
def sync_request {β : Type} (o : SyncOutcome β) : Except DataCloakError β :=
  match o with
  | .ok body => .ok body
  | .httpError s parsed =>
    match parsed with
    | some (errField, codeField) =>
      .error ⟨errField.getD (http_error_str s), some s, codeField⟩
    | none => .error ⟨http_error_str s, some s, none⟩
  | .requestExc m => .error ⟨"Request failed: " ++ m, none, none⟩

/-- `_request` together with its (absent) effect on session state: the
method body assigns to no attribute of `self`, so the state comes back
unchanged. -/
def sync_request_st {β : Type} (st : ClientState) (o : SyncOutcome β) :
    Except DataCloakError β × ClientState :=
  (sync_request o, st)

/-- Decoded login response envelope.  `dataField` is the optional `data`
object, whose only consulted member is the optional `token` string, so
the two `get` calls collapse to an `Option (Option String)`. -/
structure LoginResponse where
  success : Bool
  dataField : Option (Option String)
deriving DecidableEq

/-- `response.get('data', {}).get('token')`. -/
def login_token (r : LoginResponse) : Option String :=
  match r.dataField with
  | none => none
  | some t => t

/-- Python truthiness of the token expression: `None` and the empty
string are falsy, every other string is truthy. -/
def py_truthy : Option String → Bool
  | none => false
  | some s => s != ""

/-- `DataCloakClient.login` after its `_request` call: when the call
raised, the error propagates; otherwise, when the envelope has a truthy
`success` and a truthy `data.token`, store the token and set the session
`Authorization` header, and in every case hand the envelope back. -/
def login (st : ClientState) (o : SyncOutcome LoginResponse) :
    Except DataCloakError (LoginResponse × ClientState) :=
  match sync_request o with
  | .error e => .error e
  | .ok resp =>
    if resp.success && py_truthy (login_token resp) then
      let t := (login_token resp).getD ""
      .ok (resp, { st with
        token := some t,
        headers := set_header st.headers "Authorization" ("Bearer " ++ t) })
    else
      .ok (resp, st)

/-- Outcome of one attempt inside the asynchronous `_request` loop:
a decoded 2xx body, an HTTP error status with the parse of its error
body (as in the synchronous path), or a generic exception — connection
or timeout failure, or any other non-`DataCloakError` raised in the try
body — carrying `str(e)`. -/
inductive AttemptOutcome (β : Type) where
  | ok (body : β)
  | httpErr (status : Nat) (parsed : Option (Option String × Option String))
  | transportErr (msg : String)
deriving DecidableEq

/-- How a run of the asynchronous request loop ends: the body returned,
the `DataCloakError` raised, or the `for` loop running out of iterations
without returning or raising (Python would fall through to an implicit
`return None`). -/
inductive AsyncOutcome (β : Type) where
  | returned (body : β)
  | raised (e : DataCloakError)
  | fellThrough
deriving DecidableEq

/-- Observable run of the asynchronous request loop: how it ended, how
many call attempts it made, and the backoff delays it slept, in order. -/
structure AsyncResult (β : Type) where
  outcome : AsyncOutcome β
  attempts : Nat
  sleeps : List Nat
deriving DecidableEq

/-- The `DataCloakError` the asynchronous loop raises for a response with
status `>= 400`: built from the parsed error envelope, falling back to
`'HTTP {status}'` when the body does not parse. -/
def async_http_error (status : Nat)
    (parsed : Option (Option String × Option String)) : DataCloakError :=
  match parsed with
  | some (errField, codeField) =>
    ⟨errField.getD ("HTTP " ++ toString status), some status, codeField⟩
  | none => ⟨"HTTP " ++ toString status, some status, none⟩

/-- The body of `for attempt in range(max_retries + 1)` in
`AsyncDataCloakClient._request`, unrolled on the number of loop
iterations left.  A 2xx body returns; an HTTP error raises a
`DataCloakError` that the `except DataCloakError: raise` clause
re-raises at once; any other exception raises the attempt-count message
when `attempt == max_retries` and otherwise sleeps `2 ** attempt` and
goes round again. -/
def async_request_aux {β : Type} (outcomes : Nat → AttemptOutcome β)
    (max_retries : Nat) :
    Nat → Nat → List Nat → AsyncResult β
  | 0, attempt, sleeps => ⟨.fellThrough, attempt, sleeps⟩
  | rem + 1, attempt, sleeps =>
    match outcomes attempt with
    | .ok b => ⟨.returned b, attempt + 1, sleeps⟩
    | .httpErr s parsed => ⟨.raised (async_http_error s parsed), attempt + 1, sleeps⟩
    | .transportErr m =>
      if attempt == max_retries then
        ⟨.raised ⟨"Request failed after " ++ toString (max_retries + 1)
            ++ " attempts: " ++ m, none, none⟩, attempt + 1, sleeps⟩
      else
        async_request_aux outcomes max_retries rem (attempt + 1) (sleeps ++ [2 ^ attempt])

/-- `AsyncDataCloakClient._request`: run the attempt loop from attempt 0
with `max_retries + 1` iterations available, against the per-attempt
outcomes the environment yields. -/
def async_request {β : Type} (max_retries : Nat)
    (outcomes : Nat → AttemptOutcome β) : AsyncResult β :=
  async_request_aux outcomes max_retries (max_retries + 1) 0 []

/-- The consulted members of the `data` object of a job-status
envelope. -/
structure JobData where
  status : Option String
  error : Option String
deriving DecidableEq

/-- A decoded job-status response envelope; only its optional `data`
object is consulted by the poller. -/
structure JobEnvelope where
  dataField : Option JobData
deriving DecidableEq

/-- `job_status.get('data', {}).get('status')`. -/
def job_status_of (e : JobEnvelope) : Option String :=
  match e.dataField with
  | none => none
  | some d => d.status

/-- `job_status.get('data', {}).get('error', 'Job failed')`. -/
def job_error_of (e : JobEnvelope) : String :=
  match e.dataField with
  | none => "Job failed"
  | some d => d.error.getD "Job failed"

/-- The request `get_job` issues: `GET /api/v1/jobs/{job_id}`. -/
def get_job_request (job_id : String) : String × String :=
  ("GET", "/api/v1/jobs/" ++ job_id)

/-- The error `poll_job_completion` raises when its deadline check
fires. -/
def timeout_error (job_id : String) (max_wait : Nat) : DataCloakError :=
  ⟨"Job " ++ job_id ++ " did not complete within " ++ toString max_wait
      ++ " seconds", none, none⟩

/-- How a run of `poll_job_completion` ends, together with the requests
it issued: the completed record returned, the `DataCloakError` raised,
or the supplied stream of status responses running dry (the real loop
would keep polling; no claim needs that region). -/
inductive PollResult where
  | done (record : JobEnvelope) (requests : List (String × String))
  | thrown (e : DataCloakError) (requests : List (String × String))
  | starved (requests : List (String × String))
deriving DecidableEq

/-- The requests a poll run issued, in order. -/
def poll_requests : PollResult → List (String × String)
  | .done _ reqs => reqs
  | .thrown _ reqs => reqs
  | .starved reqs => reqs

/-- The `while True` body of `poll_job_completion`, driven by the list of
successive job-status envelopes the server returns.  `elapsed` is
`time.time() - start_time`: it starts at zero and grows by `interval` at
each `time.sleep(interval)`, status fetches themselves taking no time.
Each iteration first makes the strict deadline check, then fetches the
next status and dispatches on it: `completed` returns the record,
`failed` and `cancelled` raise, anything else sleeps and loops. -/
def poll_job_aux (job_id : String) (interval max_wait : Nat) :
    List JobEnvelope → Nat → List (String × String) → PollResult
  | [], elapsed, reqs =>
    if elapsed > max_wait then .thrown (timeout_error job_id max_wait) reqs
    else .starved reqs
  | r :: rest, elapsed, reqs =>
    if elapsed > max_wait then .thrown (timeout_error job_id max_wait) reqs
    else
      let reqs2 := reqs ++ [get_job_request job_id]
      match job_status_of r with
      | some "completed" => .done r reqs2
      | some "failed" =>
        .thrown ⟨"Job " ++ job_id ++ " failed: " ++ job_error_of r, none, none⟩ reqs2
      | some "cancelled" =>
        .thrown ⟨"Job " ++ job_id ++ " was cancelled", none, none⟩ reqs2
      | _ => poll_job_aux job_id interval max_wait rest (elapsed + interval) reqs2

/-- `DataCloakClient.poll_job_completion` (the asynchronous variant has
the identical body): start with zero elapsed time and no requests
issued. -/
def poll_job_completion (job_id : String) (interval max_wait : Nat)
    (responses : List JobEnvelope) : PollResult :=
  poll_job_aux job_id interval max_wait responses 0 []

/-- The backoff delays `2 ^ attempt, 2 ^ (attempt + 1), ...` that `n`
consecutive retried transport failures insert, starting at the given
attempt index. -/
def backoff_delays : Nat → Nat → List Nat
  | _, 0 => []
  | attempt, n + 1 => 2 ^ attempt :: backoff_delays (attempt + 1) n

theorem lookup_set_header_same (hs : List (String × String)) (k v : String) :
    lookup_header (set_header hs k v) k = some v := by
  induction hs with
  | nil => simp [set_header, lookup_header]
  | cons p rest ih =>
    by_cases h : p.1 = k
    · simp [set_header, h, lookup_header]
    · simp [set_header, h, lookup_header, ih]

theorem lookup_del_header_same (hs : List (String × String)) (k : String) :
    lookup_header (del_header hs k) k = none := by
  induction hs with
  | nil => simp [del_header, lookup_header]
  | cons p rest ih =>
    by_cases h : p.1 = k
    · simp [del_header, h, ih]
    · simp [del_header, h, lookup_header, ih]

theorem lookup_set_header_other (hs : List (String × String)) (k k2 v : String)
    (h : k2 ≠ k) :
    lookup_header (set_header hs k2 v) k = lookup_header hs k := by
  induction hs with
  | nil => simp [set_header, lookup_header, h]
  | cons p rest ih =>
    by_cases hp : p.1 = k2
    · simp [set_header, hp, lookup_header, h]
    · simp [set_header, hp, lookup_header, ih]

theorem del_header_keys (hs : List (String × String)) (k : String) :
    ∀ p ∈ del_header hs k, p.1 ≠ k := by
  induction hs with
  | nil => intro q hq; simp [del_header] at hq
  | cons p rest ih =>
    intro q hq
    by_cases h : p.1 = k
    · rw [del_header, if_pos h] at hq
      exact ih q hq
    · rw [del_header, if_neg h] at hq
      rcases List.mem_cons.mp hq with rfl | hq2
      · exact h
      · exact ih q hq2

/-- Merging a per-request header dict that nowhere mentions a key leaves
that key at its session value — the requests merge never removes a key
that is merely absent from the overrides. -/
theorem lookup_merge_of_key_absent (overrides : List (String × String)) :
    ∀ (base : List (String × String)) (k : String),
      (∀ p ∈ overrides, p.1 ≠ k) →
      lookup_header (overrides.foldl (fun acc p => set_header acc p.1 p.2) base) k =
        lookup_header base k := by
  induction overrides with
  | nil => intro base k _; rfl
  | cons p rest ih =>
    intro base k h
    rw [List.foldl_cons,
      ih (set_header base p.1 p.2) k (fun q hq => h q (List.mem_cons_of_mem p hq))]
    exact lookup_set_header_other base k p.1 p.2 (h p (List.mem_cons_self p rest))

theorem backoff_delays_eq_range : ∀ (n a : Nat),
    backoff_delays a n = (List.range n).map (fun i => 2 ^ (a + i)) := by
  intro n
  induction n with
  | zero => intro a; simp [backoff_delays]
  | succ m ih =>
    intro a
    rw [backoff_delays, ih (a + 1), List.range_succ_eq_map, List.map_cons, List.map_map]
    simp only [Nat.add_zero]
    refine congrArg (List.cons _) ?_
    apply List.map_congr_left
    intro i _
    simp only [Function.comp_apply]
    congr 1
    omega

/-- A run of the asynchronous request loop in which every attempt hits a
transport failure: every iteration short of the last sleeps its backoff
and retries, and the last raises the attempt-count message. -/
theorem async_transport_all {β : Type} (outcomes : Nat → AttemptOutcome β)
    (msgs : Nat → String) (max_retries : Nat)
    (hout : ∀ n, outcomes n = .transportErr (msgs n)) :
    ∀ (rem attempt : Nat) (sleeps : List Nat), attempt + rem = max_retries →
      async_request_aux outcomes max_retries (rem + 1) attempt sleeps =
        ⟨.raised ⟨"Request failed after " ++ toString (max_retries + 1)
            ++ " attempts: " ++ msgs max_retries, none, none⟩,
          max_retries + 1, sleeps ++ backoff_delays attempt rem⟩ := by
  intro rem
  induction rem with
  | zero =>
    intro attempt sleeps h
    have ha : attempt = max_retries := by omega
    subst ha
    simp [async_request_aux, hout, backoff_delays]
  | succ n ih =>
    intro attempt sleeps h
    have hne : attempt ≠ max_retries := by omega
    rw [async_request_aux, hout]
    simp only [beq_iff_eq, hne, if_false]
    rw [ih (attempt + 1) (sleeps ++ [2 ^ attempt]) (by omega)]
    simp [backoff_delays, List.append_assoc]

/-- A poll run never discards requests already issued: the request log of
the result extends the accumulator. -/
theorem poll_aux_reqs_le (job_id : String) (interval max_wait : Nat) :
    ∀ (responses : List JobEnvelope) (elapsed : Nat) (reqs : List (String × String)),
      reqs.length ≤
        (poll_requests (poll_job_aux job_id interval max_wait responses elapsed reqs)).length := by
  intro responses
  induction responses with
  | nil =>
    intro elapsed reqs
    by_cases h : elapsed > max_wait <;> simp [poll_job_aux, h, poll_requests]
  | cons r rest ih =>
    intro elapsed reqs
    by_cases h : elapsed > max_wait
    · simp [poll_job_aux, h, poll_requests]
    · rw [poll_job_aux, if_neg h]
      split
      · simp [poll_requests]
      · simp [poll_requests]
      · simp [poll_requests]
      · have := ih (elapsed + interval) (reqs ++ [get_job_request job_id])
        simp only [List.length_append, List.length_cons, List.length_nil] at this ⊢
        omega

/-- A poll run over only non-terminal statuses, entered with `j` fetches
already behind it: when index `k` is the first tick whose elapsed time
exceeds the deadline and enough responses remain, the run raises the
timeout error having issued exactly the job-status requests. -/
theorem poll_timeout_aux (job_id : String) (interval max_wait k : Nat) :
    ∀ (responses : List JobEnvelope) (j : Nat) (reqs : List (String × String)),
      (∀ r ∈ responses, job_status_of r ≠ some "completed" ∧
          job_status_of r ≠ some "failed" ∧ job_status_of r ≠ some "cancelled") →
      (∀ i, j ≤ i → i < k → i * interval ≤ max_wait) →
      max_wait < k * interval → j ≤ k → k - j ≤ responses.length →
      poll_job_aux job_id interval max_wait responses (j * interval) reqs =
        .thrown (timeout_error job_id max_wait)
          (reqs ++ List.replicate (k - j) (get_job_request job_id)) := by
  intro responses
  induction responses with
  | nil =>
    intro j reqs hnt hbef haft hjk hlen
    have hj : j = k := by simp at hlen; omega
    subst hj
    rw [poll_job_aux, if_pos (by omega)]
    simp
  | cons r rest ih =>
    intro j reqs hnt hbef haft hjk hlen
    by_cases hj : j = k
    · subst hj
      rw [poll_job_aux, if_pos (by omega)]
      simp
    · have hjk2 : j < k := lt_of_le_of_ne hjk hj
      have hle : j * interval ≤ max_wait := hbef j le_rfl hjk2
      rw [poll_job_aux, if_neg (by omega)]
      obtain ⟨hc1, hc2, hc3⟩ := hnt r (List.mem_cons_self r rest)
      split
      · next heq => exact absurd heq hc1
      · next heq => exact absurd heq hc2
      · next heq => exact absurd heq hc3
      · rw [show j * interval + interval = (j + 1) * interval by ring]
        rw [ih (j + 1) (reqs ++ [get_job_request job_id])
          (fun r2 hr2 => hnt r2 (List.mem_cons_of_mem r hr2))
          (fun i hi hik => hbef i (by omega) hik)
          haft (by omega) (by simp at hlen ⊢; omega)]
        rw [show k - j = (k - (j + 1)) + 1 by omega]
        simp [List.replicate_succ, List.append_assoc]

/-- Claim C1, counterexample: with max retries 3, a request whose every
attempt yields the retryable status 429 makes exactly one call attempt in
the asynchronous request loop — not 3 + 1 — and sleeps no backoff delay,
because the loop re-raises every DataCloakError (any status at or above
400) immediately. -/
theorem async_retryable_status_not_retried_cex :
    (async_request 3 (fun _ => (AttemptOutcome.httpErr 429 none : AttemptOutcome Unit))).attempts = 1 ∧
    (async_request 3 (fun _ => (AttemptOutcome.httpErr 429 none : AttemptOutcome Unit))).attempts ≠ 3 + 1 ∧
    (async_request 3 (fun _ => (AttemptOutcome.httpErr 429 none : AttemptOutcome Unit))).sleeps = [] := by
  refine ⟨rfl, by decide, rfl⟩

/-- Claim C1, amended: in the asynchronous request loop, a request whose
every attempt yields a transport failure makes exactly max retries + 1
call attempts before raising an error naming that count, and the backoff
delay before retry attempt n is 2 to the n (base factor 1); a request
whose every attempt yields a retryable HTTP status in
429, 500, 502, 503, 504 raises after exactly one attempt with no delay;
status-based retries are instead delegated by the synchronous
constructor to its transport adapter, configured with total =
max retries, backoff factor 1 and exactly that status list. -/
theorem retry_policy_attempts_and_backoff
    (base_url : String) (token : Option String) (timeout max_retries : Nat)
    (msgs : Nat → String) (s : Nat) (_hs : s ∈ [429, 500, 502, 503, 504])
    (parsed : Option (Option String × Option String)) :
    (async_request max_retries
        (fun n => (AttemptOutcome.transportErr (msgs n) : AttemptOutcome Unit)) =
      ⟨.raised ⟨"Request failed after " ++ toString (max_retries + 1)
          ++ " attempts: " ++ msgs max_retries, none, none⟩,
        max_retries + 1, (List.range max_retries).map (fun n => 2 ^ n)⟩) ∧
    (async_request max_retries
        (fun _ => (AttemptOutcome.httpErr s parsed : AttemptOutcome Unit)) =
      ⟨.raised (async_http_error s parsed), 1, []⟩) ∧
    (DataCloakClient.init base_url token timeout max_retries).retry =
      ⟨max_retries, 1, [429, 500, 502, 503, 504]⟩ := by
  refine ⟨?_, ?_, ?_⟩
  · have h := async_transport_all
      (fun n => (AttemptOutcome.transportErr (msgs n) : AttemptOutcome Unit))
      msgs max_retries (fun n => rfl) max_retries 0 [] (by omega)
    rw [async_request, h, backoff_delays_eq_range]
    simp
  · rw [async_request, async_request_aux]
  · rfl

/-- Claim C1, witness: the amended claim at max retries 2, status 429,
and transport messages 0, 1, 2. -/
theorem retry_policy_attempts_and_backoff_witness :
    ((429 : Nat) ∈ [429, 500, 502, 503, 504]) ∧
    ((async_request 2 (fun n => (AttemptOutcome.transportErr (toString n) : AttemptOutcome Unit)) =
        ⟨.raised ⟨"Request failed after " ++ toString (2 + 1) ++ " attempts: " ++ toString 2,
            none, none⟩,
          2 + 1, (List.range 2).map (fun n => 2 ^ n)⟩) ∧
      (async_request 2 (fun _ => (AttemptOutcome.httpErr 429 none : AttemptOutcome Unit)) =
        ⟨.raised (async_http_error 429 none), 1, []⟩) ∧
      (DataCloakClient.init "http://localhost:3001" none 30 2).retry =
        ⟨2, 1, [429, 500, 502, 503, 504]⟩) :=
  ⟨by decide,
   retry_policy_attempts_and_backoff "http://localhost:3001" none 30 2
     (fun n => toString n) 429 (by decide) none⟩

/-- Claim C2: a job whose successive status fetches return queued,
running, running, completed, polled with interval 0, returns the full
record of the final fetch after exactly 4 status fetches and raises no
error, for every non-negative maximum wait and any further responses the
server would have given. -/
theorem poll_completes_after_four_fetches (job_id : String) (max_wait : Nat)
    (q r1 r2 c : JobEnvelope) (rest : List JobEnvelope)
    (hq : job_status_of q = some "queued")
    (h1 : job_status_of r1 = some "running")
    (h2 : job_status_of r2 = some "running")
    (hc : job_status_of c = some "completed") :
    poll_job_completion job_id 0 max_wait (q :: r1 :: r2 :: c :: rest) =
      .done c (List.replicate 4 (get_job_request job_id)) := by
  simp [poll_job_completion, poll_job_aux, hq, h1, h2, hc, List.replicate]

/-- Claim C2, witness: the queued, running, running, completed sequence
polled concretely with interval 0 and maximum wait 3600. -/
theorem poll_completes_after_four_fetches_witness :
    (job_status_of ⟨some ⟨some "queued", none⟩⟩ = some "queued") ∧
    poll_job_completion "job-1" 0 3600
        [⟨some ⟨some "queued", none⟩⟩, ⟨some ⟨some "running", none⟩⟩,
         ⟨some ⟨some "running", none⟩⟩, ⟨some ⟨some "completed", none⟩⟩] =
      .done ⟨some ⟨some "completed", none⟩⟩ (List.replicate 4 (get_job_request "job-1")) :=
  ⟨rfl, poll_completes_after_four_fetches "job-1" 3600 _ _ _ _ [] rfl rfl rfl rfl⟩

/-- Claim C3: when every observed status is non-terminal and tick k is
the first whose elapsed time strictly exceeds the maximum wait, the
poller raises the timeout DataCloakError describing the wait, having
issued exactly k job-status fetches — none after the deadline check
fires — and every request it ever issued is a GET of the job-status
path, never a cancellation. -/
theorem poll_timeout_after_deadline (job_id : String) (interval max_wait k : Nat)
    (responses : List JobEnvelope)
    (hnt : ∀ r ∈ responses, job_status_of r ≠ some "completed" ∧
        job_status_of r ≠ some "failed" ∧ job_status_of r ≠ some "cancelled")
    (hbef : ∀ i, i < k → i * interval ≤ max_wait)
    (haft : max_wait < k * interval) (hlen : k ≤ responses.length) :
    poll_job_completion job_id interval max_wait responses =
      .thrown (timeout_error job_id max_wait)
        (List.replicate k (get_job_request job_id)) ∧
    ∀ req ∈ List.replicate k (get_job_request job_id), req.1 = "GET" := by
  constructor
  · have h := poll_timeout_aux job_id interval max_wait k responses 0 [] hnt
      (fun i _ hik => hbef i hik) haft (Nat.zero_le k) (by simpa using hlen)
    simpa [poll_job_completion] using h
  · intro req hreq
    rw [List.eq_of_mem_replicate hreq]
    rfl

/-- Claim C3, witness: interval 1, maximum wait 2 and three non-terminal
statuses time out after exactly 3 fetches. -/
theorem poll_timeout_after_deadline_witness :
    (poll_job_completion "job-1" 1 2
        [⟨some ⟨some "queued", none⟩⟩, ⟨some ⟨some "running", none⟩⟩,
         ⟨some ⟨some "running", none⟩⟩] =
      .thrown (timeout_error "job-1" 2) (List.replicate 3 (get_job_request "job-1"))) ∧
    ∀ req ∈ List.replicate 3 (get_job_request "job-1"), req.1 = "GET" :=
  poll_timeout_after_deadline "job-1" 1 2 3 _ (by decide)
    (fun i hi => by omega) (by decide) (by decide)

/-- Claim C4: a fetched status of failed makes the poller raise a
DataCloakError whose message carries the server-supplied error text
verbatim when data.error is present and the generic fallback Job failed
when absent; a status of cancelled raises the cancellation
DataCloakError; in both cases exactly one fetch was made and no retry
follows. -/
theorem poll_failed_and_cancelled_raise (job_id : String) (interval max_wait : Nat)
    (r : JobEnvelope) (rest : List JobEnvelope) :
    (job_status_of r = some "failed" →
      poll_job_completion job_id interval max_wait (r :: rest) =
        .thrown ⟨"Job " ++ job_id ++ " failed: " ++ job_error_of r, none, none⟩
          [get_job_request job_id]) ∧
    (job_status_of r = some "cancelled" →
      poll_job_completion job_id interval max_wait (r :: rest) =
        .thrown ⟨"Job " ++ job_id ++ " was cancelled", none, none⟩
          [get_job_request job_id]) ∧
    (∀ d e, r.dataField = some d → d.error = some e → job_error_of r = e) ∧
    (∀ d, r.dataField = some d → d.error = none → job_error_of r = "Job failed") := by
  refine ⟨?_, ?_, ?_, ?_⟩
  · intro h; simp [poll_job_completion, poll_job_aux, h]
  · intro h; simp [poll_job_completion, poll_job_aux, h]
  · intro d e hd he; simp [job_error_of, hd, he]
  · intro d hd he; simp [job_error_of, hd, he]

/-- Claim C4, witness: a failed job with server error text boom and a
cancelled job, each observed on the first fetch. -/
theorem poll_failed_and_cancelled_raise_witness :
    (poll_job_completion "job-1" 2 3600 [⟨some ⟨some "failed", some "boom"⟩⟩] =
      .thrown ⟨"Job " ++ "job-1" ++ " failed: " ++ job_error_of ⟨some ⟨some "failed", some "boom"⟩⟩,
        none, none⟩ [get_job_request "job-1"]) ∧
    (poll_job_completion "job-1" 2 3600 [⟨some ⟨some "cancelled", none⟩⟩] =
      .thrown ⟨"Job " ++ "job-1" ++ " was cancelled", none, none⟩ [get_job_request "job-1"]) ∧
    job_error_of ⟨some ⟨some "failed", some "boom"⟩⟩ = "boom" :=
  ⟨(poll_failed_and_cancelled_raise "job-1" 2 3600 ⟨some ⟨some "failed", some "boom"⟩⟩ []).1 rfl,
   (poll_failed_and_cancelled_raise "job-1" 2 3600 ⟨some ⟨some "cancelled", none⟩⟩ []).2.1 rfl,
   (poll_failed_and_cancelled_raise "job-1" 2 3600 ⟨some ⟨some "failed", some "boom"⟩⟩ []).2.2.1
     ⟨some "failed", some "boom"⟩ "boom" rfl rfl⟩

/-- Claim C5: a request whose attempt yields a non-retryable 4xx status
other than 429 raises a DataCloakError carrying that status after
exactly one call attempt, with no retry and no backoff delay. -/
theorem non_retryable_status_one_attempt (max_retries s : Nat)
    (parsed : Option (Option String × Option String))
    (_h4 : 400 ≤ s) (_hnr : s ∉ [429, 500, 502, 503, 504]) :
    async_request max_retries (fun _ => (AttemptOutcome.httpErr s parsed : AttemptOutcome Unit)) =
      ⟨.raised (async_http_error s parsed), 1, []⟩ ∧
    (async_http_error s parsed).status_code = some s := by
  constructor
  · rw [async_request, async_request_aux]
  · rcases parsed with _ | ⟨e, c⟩ <;> simp [async_http_error]

/-- Claim C5, witness: status 404 with max retries 3 raises after one
attempt. -/
theorem non_retryable_status_one_attempt_witness :
    ((400 ≤ 404) ∧ (404 : Nat) ∉ [429, 500, 502, 503, 504]) ∧
    (async_request 3 (fun _ => (AttemptOutcome.httpErr 404 none : AttemptOutcome Unit)) =
        ⟨.raised (async_http_error 404 none), 1, []⟩ ∧
      (async_http_error 404 none).status_code = some 404) :=
  ⟨⟨by decide, by decide⟩, non_retryable_status_one_attempt 3 404 none (by decide) (by decide)⟩

/-- Claim C7: a transport-layer failure in the synchronous path is
surfaced as a DataCloakError with no status code whose message describes
the failure, and exhausting the asynchronous retry loop on transport
failures raises a DataCloakError with no status code whose message
states the number of attempts made. -/
theorem transport_failure_error_shape :
    (∀ m : String, sync_request (SyncOutcome.requestExc m : SyncOutcome Unit) =
      .error ⟨"Request failed: " ++ m, none, none⟩) ∧
    (∀ (max_retries : Nat) (msgs : Nat → String),
      async_request max_retries
          (fun n => (AttemptOutcome.transportErr (msgs n) : AttemptOutcome Unit)) =
        ⟨.raised ⟨"Request failed after " ++ toString (max_retries + 1)
            ++ " attempts: " ++ msgs max_retries, none, none⟩,
          max_retries + 1, backoff_delays 0 max_retries⟩) := by
  constructor
  · intro m; rfl
  · intro mr msgs
    have h := async_transport_all
      (fun n => (AttemptOutcome.transportErr (msgs n) : AttemptOutcome Unit))
      msgs mr (fun n => rfl) mr 0 [] (by omega)
    rw [async_request, h]
    simp

/-- Claim C6, counterexample: a login envelope with success true and a
present but empty data.token field leaves the credential unchanged
(still none), so the credential does not equal the token carried by the
field. -/
theorem login_empty_token_cex :
    login (DataCloakClient.init "http://localhost:3001" none 30 3) (.ok ⟨true, some (some "")⟩) =
      .ok (⟨true, some (some "")⟩, DataCloakClient.init "http://localhost:3001" none 30 3) ∧
    (DataCloakClient.init "http://localhost:3001" none 30 3).token ≠ some "" := by
  constructor
  · rfl
  · simp [DataCloakClient.init]

/-- Claim C6, amended: after a login whose envelope has success true and
a non-empty data.token, the held credential equals that token, the
session Authorization header is Bearer followed by the token, a
subsequent request sends that header, and the request primitive itself
never mutates session state — even when the session previously held no
credential. -/
theorem login_replaces_credential (st : ClientState) (resp : LoginResponse) (t : String)
    (hsc : resp.success = true) (ht : login_token resp = some t) (hne : t ≠ "") :
    login st (.ok resp) =
      .ok (resp, { st with
        token := some t,
        headers := set_header st.headers "Authorization" ("Bearer " ++ t) }) ∧
    lookup_header (set_header st.headers "Authorization" ("Bearer " ++ t)) "Authorization" =
      some ("Bearer " ++ t) ∧
    lookup_header
        (sent_headers (set_header st.headers "Authorization" ("Bearer " ++ t)) none false)
        "Authorization" = some ("Bearer " ++ t) ∧
    (∀ (o : SyncOutcome Unit) (st2 : ClientState), (sync_request_st st2 o).2 = st2) := by
  refine ⟨?_, ?_, ?_, fun o st2 => rfl⟩
  · simp [login, sync_request, hsc, ht, py_truthy, bne_iff_ne, hne]
  · exact lookup_set_header_same st.headers "Authorization" ("Bearer " ++ t)
  · simpa [sent_headers, request_headers, merge_headers] using
      lookup_set_header_same st.headers "Authorization" ("Bearer " ++ t)

/-- Claim C6, witness: a session constructed without a credential logs
in with token tok123 and subsequently sends the new bearer header. -/
theorem login_replaces_credential_witness :
    login (DataCloakClient.init "http://localhost:3001" none 30 3)
        (.ok ⟨true, some (some "tok123")⟩) =
      .ok (⟨true, some (some "tok123")⟩,
        { DataCloakClient.init "http://localhost:3001" none 30 3 with
          token := some "tok123",
          headers := set_header (DataCloakClient.init "http://localhost:3001" none 30 3).headers
            "Authorization" ("Bearer " ++ "tok123") }) ∧
    lookup_header (set_header (DataCloakClient.init "http://localhost:3001" none 30 3).headers
        "Authorization" ("Bearer " ++ "tok123")) "Authorization" = some ("Bearer " ++ "tok123") ∧
    lookup_header (sent_headers (set_header
        (DataCloakClient.init "http://localhost:3001" none 30 3).headers
        "Authorization" ("Bearer " ++ "tok123")) none false) "Authorization" =
      some ("Bearer " ++ "tok123") ∧
    (∀ (o : SyncOutcome Unit) (st2 : ClientState), (sync_request_st st2 o).2 = st2) :=
  login_replaces_credential (DataCloakClient.init "http://localhost:3001" none 30 3)
    ⟨true, some (some "tok123")⟩ "tok123" rfl rfl (by decide)

/-- Claim C8, code bug: for a multipart request through a freshly
constructed session, `_request` builds a per-request header dict with
Content-Type deleted (second conjunct — the clear intent, also stated by
the comment in the source), but `session.request` merges per-request
headers over the session base, which re-supplies the session value for
every key merely absent from the override dict; the headers actually
sent with the multipart request therefore still carry Content-Type
application/json, contradicting the claim and the intent of the
deletion. -/
theorem multipart_json_content_type_survives_bug
    (base_url : String) (token : Option String) (timeout max_retries : Nat)
    (explicit : Option (List (String × String))) :
    lookup_header
        (sent_headers (DataCloakClient.init base_url token timeout max_retries).headers
          explicit true) "Content-Type" = some "application/json" ∧
    (request_headers (DataCloakClient.init base_url token timeout max_retries).headers
        explicit true).map (fun hs => lookup_header hs "Content-Type") = some none := by
  have hct : lookup_header (DataCloakClient.init base_url token timeout max_retries).headers
      "Content-Type" = some "application/json" := by
    cases token <;> simp [DataCloakClient.init, set_header, lookup_header]
  constructor
  · have habs := del_header_keys
      (DataCloakClient.init base_url token timeout max_retries).headers "Content-Type"
    simp only [sent_headers, request_headers, hct, Option.isSome_some, if_true, merge_headers]
    rw [lookup_merge_of_key_absent _ _ _ habs]
    exact hct
  · simp [request_headers, hct, lookup_del_header_same]

/-- Claim C9: for every non-negative maximum wait — including zero and
values smaller than the interval — the poller performs at least one
job-status fetch before its timeout branch can fire, because the
deadline comparison is strict and the initial elapsed time of zero never
exceeds a non-negative maximum wait. -/
theorem poller_fetches_before_deadline_check (job_id : String)
    (interval max_wait : Nat) (r : JobEnvelope) (rest : List JobEnvelope) :
    1 ≤ (poll_requests (poll_job_completion job_id interval max_wait (r :: rest))).length := by
  unfold poll_job_completion
  rw [poll_job_aux, if_neg (Nat.not_lt_zero max_wait)]
  split
  · simp [poll_requests]
  · simp [poll_requests]
  · simp [poll_requests]
  · have := poll_aux_reqs_le job_id interval max_wait rest (0 + interval)
      ([] ++ [get_job_request job_id])
    simp only [List.nil_append, List.length_cons, List.length_nil] at this ⊢
    omega

/-- Claim C10: a login whose envelope lacks a true success or lacks a
data.token value leaves the session — credential and headers — exactly
as it was, and still returns the envelope to the caller without raising
an error. -/
theorem login_failure_leaves_state (st : ClientState) (resp : LoginResponse)
    (h : resp.success = false ∨ login_token resp = none) :
    login st (.ok resp) = .ok (resp, st) := by
  rcases h with h | h
  · simp [login, sync_request, h]
  · simp [login, sync_request, h, py_truthy]

/-- Claim C10, witness: a login envelope with success false returns the
envelope and leaves the freshly constructed session untouched. -/
theorem login_failure_leaves_state_witness :
    login (DataCloakClient.init "http://localhost:3001" none 30 3)
        (.ok ⟨false, some (some "tok")⟩) =
      .ok (⟨false, some (some "tok")⟩, DataCloakClient.init "http://localhost:3001" none 30 3) :=
  login_failure_leaves_state (DataCloakClient.init "http://localhost:3001" none 30 3)
    ⟨false, some (some "tok")⟩ (Or.inl rfl)

end DataCloak
